import Mathlib

/-!
Verification of the option-resolution core of `ord-bells` (`src/options.rs`):
network selection, path resolution, config loading, RPC client construction
and wallet preflight. Rust `Option`/`Result` become Lean `Option`/`Except`,
paths become lists of path segments, and the remote node plus the platform
environment are explicit parameters.
-/

deriving instance DecidableEq for Except

namespace OrdBells

/-- The closed network enumeration (`Chain` in the source). -/
inductive Chain where
  | mainnet
  | testnet
  | signet
  | regtest
deriving DecidableEq, Repr, Fintype

/-- Modelled from the spec: the `Chain` type's `Display` implementation is not
under `src/`; the spec and the in-repo test `rpc_server_chain_must_match`
("Dogecoin RPC server is on testnet but ord is on mainnet") fix the display
name of each network to its lowercase canonical name. -/
def Chain.display : Chain → String
  | .mainnet => "mainnet"
  | .testnet => "testnet"
  | .signet => "signet"
  | .regtest => "regtest"

/-- Modelled from the spec: `Chain::default_rpc_port` is not under `src/`;
the in-repo tests `use_default_network` (port 22555 for mainnet) and
`uses_network_defaults` (port 38332 for signet) pin the mainnet and signet
values, and the remaining networks carry Dogecoin Core's conventional ports. -/
def Chain.default_rpc_port : Chain → Nat
  | .mainnet => 22555
  | .testnet => 44555
  | .signet => 38332
  | .regtest => 18332

/-- Modelled from the spec: `Chain::join_with_data_dir` is not under `src/`;
the spec's filesystem-suffix policy (Main contributes no segment, every other
network one segment equal to its canonical name, Testnet's being "testnet3")
is pinned by the in-repo tests `network_accepts_aliases`,
`othernet_cookie_file_path` and `mainnet_cookie_file_path`. -/
def Chain.join_with_data_dir (c : Chain) (base : List String) : List String :=
  match c with
  | .mainnet => base
  | .testnet => base ++ ["testnet3"]
  | .signet => base ++ ["signet"]
  | .regtest => base ++ ["regtest"]

/-- The platform environment and the parts of the repository outside the
embedded file that `Options` methods consult: the platform family, the
optionally-resolvable home and per-user data directories, the
`integration_test()` toggle, and `Chain::first_inscription_height`'s
per-network table (kept abstract, as no claim depends on its values). -/
structure Env where
  isLinux : Bool
  homeDir : Option (List String)
  dataDir : Option (List String)
  integrationTest : Bool
  chainFirstInscriptionHeight : Chain → Nat

/-- The `Options` struct from `src/options.rs`. Fields whose name collides
with the method of the same name in the source carry an `_opt` suffix. -/
structure Options where
  dogecoin_data_dir : Option (List String)
  chain_argument : Chain
  config : Option (List String)
  config_dir : Option (List String)
  cookie_file_opt : Option (List String)
  first_inscription_height_opt : Option Nat
  rpc_url_opt : Option String
  regtest : Bool
  signet : Bool
  testnet : Bool
  wallet : String
deriving Repr

/-- `Options::chain`: signet, then regtest, then testnet, else the generic
chain argument. -/
def Options.chain (o : Options) : Chain :=
  if o.signet then .signet
  else if o.regtest then .regtest
  else if o.testnet then .testnet
  else o.chain_argument

/-- `Options::first_inscription_height`. -/
def Options.first_inscription_height (o : Options) (env : Env) : Nat :=
  if o.chain = .regtest then
    o.first_inscription_height_opt.getD 0
  else if env.integrationTest then
    0
  else
    match o.first_inscription_height_opt with
    | some h => h
    | none => env.chainFirstInscriptionHeight o.chain

/-- `Options::rpc_url`: the explicit override, else
`127.0.0.1:<default port>/wallet/<wallet>`. -/
def Options.rpc_url (o : Options) : String :=
  match o.rpc_url_opt with
  | some url => url
  | none =>
    "127.0.0.1:" ++ toString (o.chain).default_rpc_port ++ "/wallet/" ++ o.wallet

/-- `Options::cookie_file`. -/
def Options.cookie_file (o : Options) (env : Env) : Except String (List String) :=
  match o.cookie_file_opt with
  | some cf => .ok cf
  | none =>
    let base : Except String (List String) :=
      match o.dogecoin_data_dir with
      | some d => .ok d
      | none =>
        if env.isLinux then
          match env.homeDir with
          | some h => .ok (h ++ [".dogecoin"])
          | none => .error "failed to retrieve home dir"
        else
          match env.dataDir with
          | some d => .ok (d ++ ["Dogecoin"])
          | none => .error "failed to retrieve data dir"
    match base with
    | .error e => .error e
    | .ok path => .ok ((o.chain).join_with_data_dir path ++ [".cookie"])

/-- The persisted configuration document (`Config`): a set of hidden
identifiers, here a list of the identifier strings. -/
structure Config where
  hidden : List String
deriving DecidableEq, Repr

/-- The default (empty) configuration. -/
def Config.default : Config := ⟨[]⟩

/-- A filesystem snapshot: each path either is absent (`none`) or holds
contents. -/
structure FS where
  file : List String → Option String

/-- `Options::load_config`. `yaml` stands for `serde_yaml::from_reader`:
parsing the contents of a present document, failing on a malformed one.
`File::open` on an absent explicit path is the open failure of the source. -/
def Options.load_config (o : Options) (fs : FS) (yaml : String → Except String Config) :
    Except String Config :=
  match o.config with
  | some path =>
    match fs.file path with
    | none => .error "failed to open config file"
    | some contents => yaml contents
  | none =>
    match o.config_dir with
    | some dir =>
      match fs.file (dir ++ ["ord.yaml"]) with
      | some contents => yaml contents
      | none => .ok Config.default
    | none => .ok Config.default

/-- `Options::format_dogecoin_core_version`. -/
def format_dogecoin_core_version (version : Nat) : String :=
  toString (version / 1000000) ++ "." ++ toString (version % 1000000 / 10000)
    ++ "." ++ toString (version % 10000 / 100) ++ "." ++ toString (version % 100)

/-- Rust's `str::starts_with` on string literals: the pattern's characters
are a prefix of the string's characters. -/
def strStartsWith (s pre : String) : Bool :=
  pre.data.isPrefixOf s.data

/-- The remote node's observable behaviour for one client construction: the
chain string from `get_blockchain_info`, the node version, the loaded wallet
list, whether `load_wallet` succeeds, and the descriptor strings that
`list_descriptors` reports. -/
structure RpcNode where
  chainStr : String
  version : Nat
  wallets : List String
  loadWalletOk : Bool
  descriptors : List String
deriving DecidableEq, Repr

/-- A constructed client handle, tagged with the node it talks to. -/
structure Client where
  node : RpcNode
deriving DecidableEq, Repr

/-- The decoding of the node's reported chain string performed by the
`match` in `Options::dogecoin_rpc_client`; `none` is the `bail!` arm. -/
def chainOfStr (s : String) : Option Chain :=
  if s = "main" then some .mainnet
  else if s = "test" then some .testnet
  else if s = "regtest" then some .regtest
  else if s = "signet" then some .signet
  else none

/-- `Options::dogecoin_rpc_client`: resolve the cookie file (wrapping a
failure), connect (`connectOk` stands for `Client::new` succeeding), decode
the node's chain string, and compare it to the selected chain. -/
def Options.dogecoin_rpc_client (o : Options) (env : Env) (node : RpcNode)
    (connectOk : Bool) : Except String Client :=
  match o.cookie_file env with
  | .error err => .error ("failed to get cookie file path: " ++ err)
  | .ok _ =>
    if connectOk then
      match chainOfStr node.chainStr with
      | none => .error ("Dogecoin RPC server on unknown chain: " ++ node.chainStr)
      | some rpc_chain =>
        let ord_chain := o.chain
        if rpc_chain ≠ ord_chain then
          .error ("Dogecoin RPC server is on " ++ rpc_chain.display
            ++ " but ord is on " ++ ord_chain.display)
        else
          .ok ⟨node⟩
    else
      .error ("failed to connect to Dogecoin Core RPC at " ++ o.rpc_url)

/-- `MIN_VERSION` from `dogecoin_rpc_client_for_wallet_command`. -/
def MIN_VERSION : Nat := 1140600

/-- The wallet-shape error message of
`dogecoin_rpc_client_for_wallet_command`, with the wallet name spliced in. -/
def walletErrMsg (wallet : String) : String :=
  "wallet \"" ++ wallet
    ++ "\" contains unexpected output descriptors, and does not appear to be an `ord` wallet, create a new wallet with `ord wallet create`"

/-- `Options::dogecoin_rpc_client_for_wallet_command`: build the plain client,
enforce the minimum node version, and unless `create` holds, load the wallet
if needed and validate its descriptor shape. -/
def Options.dogecoin_rpc_client_for_wallet_command (o : Options) (env : Env)
    (node : RpcNode) (connectOk : Bool) (create : Bool) : Except String Client :=
  match o.dogecoin_rpc_client env node connectOk with
  | .error e => .error e
  | .ok client =>
    if node.version < MIN_VERSION then
      .error ("Dogecoin Core " ++ format_dogecoin_core_version MIN_VERSION
        ++ " or newer required, current version is "
        ++ format_dogecoin_core_version node.version)
    else if !create then
      if !node.wallets.contains o.wallet && !node.loadWalletOk then
        .error "failed to load wallet"
      else
        let tr := (node.descriptors.filter (fun d => strStartsWith d "tr(")).length
        let rawtr := (node.descriptors.filter (fun d => strStartsWith d "rawtr(")).length
        if tr ≠ 2 ∨ node.descriptors.length ≠ 2 + rawtr then
          .error (walletErrMsg o.wallet)
        else
          .ok client
    else
      .ok client

/-- The arguments supplied on the command line that belong to clap's
`chains` `ArgGroup`: `--chain` (with its chosen value) and the three boolean
shortcuts. `chain_argument = none` means the flag was not supplied and its
default applies. -/
structure SuppliedChainArgs where
  chain_argument : Option Chain
  signet : Bool
  regtest : Bool
  testnet : Bool
deriving DecidableEq, Repr, Fintype

/-- How many members of the `chains` group were supplied. -/
def chainsGroupCount (a : SuppliedChainArgs) : Nat :=
  (if a.chain_argument.isSome then 1 else 0) + (if a.signet then 1 else 0)
    + (if a.regtest then 1 else 0) + (if a.testnet then 1 else 0)

/-- Modelled from the spec: the validation clap performs for the `ArgGroup`
named "chains" declared on `Options` (the parser itself is library code not
under `src/`): supplying more than one member of the group is a usage error
raised before resolution; otherwise parsing yields the flag values, the
generic chain argument defaulting to mainnet. -/
def parseChainArgs (a : SuppliedChainArgs) : Except String (Bool × Bool × Bool × Chain) :=
  if 1 < chainsGroupCount a then
    .error "usage error: conflicting network arguments"
  else
    .ok (a.signet, a.regtest, a.testnet, a.chain_argument.getD .mainnet)

/-- Build an `Options` value from parsed chain flags, every other field at a
fixed default; used to relate `parseChainArgs` to `Options.chain`. -/
def optionsOfChainFlags (s r t : Bool) (c : Chain) : Options :=
  { dogecoin_data_dir := none
    chain_argument := c
    config := none
    config_dir := none
    cookie_file_opt := none
    first_inscription_height_opt := none
    rpc_url_opt := none
    regtest := r
    signet := s
    testnet := t
    wallet := "ord" }

/-- A concrete Linux-like environment with both platform directories
resolvable, used to instantiate theorems at concrete inputs. -/
def envLinux : Env :=
  { isLinux := true
    homeDir := some ["home"]
    dataDir := some ["data"]
    integrationTest := false
    chainFirstInscriptionHeight := fun _ => 0 }

/-- A Linux-like environment whose home directory cannot be resolved. -/
def envNoHome : Env :=
  { isLinux := true
    homeDir := none
    dataDir := none
    integrationTest := false
    chainFirstInscriptionHeight := fun _ => 0 }

/-- A non-Linux environment whose per-user data directory cannot be
resolved. -/
def envNoData : Env :=
  { isLinux := false
    homeDir := none
    dataDir := none
    integrationTest := false
    chainFirstInscriptionHeight := fun _ => 0 }

/-- A mainnet node of exactly the minimum version whose `ord` wallet holds
two taproot descriptors and no raw-taproot descriptor. -/
def nodeTr2 : RpcNode :=
  { chainStr := "main"
    version := 1140600
    wallets := ["ord"]
    loadWalletOk := true
    descriptors := ["tr(a)", "tr(b)"] }

/-- A mainnet node whose `ord` wallet holds two taproot descriptors plus one
raw-taproot descriptor (three descriptors in total). -/
def nodeTr2Raw1 : RpcNode :=
  { chainStr := "main"
    version := 1140600
    wallets := ["ord"]
    loadWalletOk := true
    descriptors := ["tr(a)", "tr(b)", "rawtr(c)"] }

/-- A mainnet node whose `ord` wallet holds a single taproot descriptor. -/
def nodeTr1 : RpcNode :=
  { chainStr := "main"
    version := 1140600
    wallets := ["ord"]
    loadWalletOk := true
    descriptors := ["tr(a)"] }

/-- A node reporting the testnet chain. -/
def nodeTest : RpcNode :=
  { chainStr := "test"
    version := 1140600
    wallets := ["ord"]
    loadWalletOk := true
    descriptors := ["tr(a)", "tr(b)"] }

/-- A node reporting an unrecognised chain string. -/
def nodeFoo : RpcNode :=
  { chainStr := "foonet"
    version := 1140600
    wallets := ["ord"]
    loadWalletOk := true
    descriptors := ["tr(a)", "tr(b)"] }

/-- A mainnet node one version below the required minimum. -/
def nodeOld : RpcNode :=
  { chainStr := "main"
    version := 1140599
    wallets := ["ord"]
    loadWalletOk := true
    descriptors := ["tr(a)", "tr(b)"] }

/-- A filesystem holding one conventionally named config document under the
directory `cfg`. -/
def fsOrdYaml : FS :=
  ⟨fun p => if p = ["cfg", "ord.yaml"] then some "hidden-doc" else none⟩

/-- A toy parse function: one recognised document, everything else
malformed. -/
def yamlToy : String → Except String Config :=
  fun s => if s = "hidden-doc" then .ok ⟨["id0"]⟩ else .error "malformed"

/-- When the cookie file resolves and the node's chain string decodes to the
selected chain, `dogecoin_rpc_client` succeeds with a handle on that node. -/
theorem rpc_client_ok (o : Options) (env : Env) (node : RpcNode) (p : List String)
    (hp : o.cookie_file env = .ok p)
    (hchain : chainOfStr node.chainStr = some o.chain) :
    o.dogecoin_rpc_client env node true = .ok ⟨node⟩ := by
  simp [Options.dogecoin_rpc_client, hp, hchain]

/-- Under a matching chain, a sufficient node version and a loadable wallet,
the non-create wallet-command constructor reduces to the descriptor-shape
check. -/
theorem wallet_cmd_reduce (o : Options) (env : Env) (node : RpcNode) (p : List String)
    (hp : o.cookie_file env = .ok p)
    (hchain : chainOfStr node.chainStr = some o.chain)
    (hver : MIN_VERSION ≤ node.version)
    (hload : node.wallets.contains o.wallet = true ∨ node.loadWalletOk = true) :
    o.dogecoin_rpc_client_for_wallet_command env node true false
      = if (node.descriptors.filter (fun d => strStartsWith d "tr(")).length ≠ 2
            ∨ node.descriptors.length
                ≠ 2 + (node.descriptors.filter (fun d => strStartsWith d "rawtr(")).length
        then .error (walletErrMsg o.wallet)
        else .ok ⟨node⟩ := by
  have hv : ¬ node.version < MIN_VERSION := Nat.not_lt.mpr hver
  have hl : (!node.wallets.contains o.wallet && !node.loadWalletOk) = false := by
    rcases hload with h | h
    · rw [h]; rfl
    · rw [h]; simp
  rw [Options.dogecoin_rpc_client_for_wallet_command, rpc_client_ok o env node p hp hchain]
  simp only [hv, if_false, Bool.not_false, if_true, hl]
  simp

/-- C1: parsing rejects more than one chain shortcut, or a shortcut combined
with a non-default generic chain choice; with only the generic choice or only
one shortcut, `Options.chain` returns exactly that network; precedence is
Signet over Regtest over Testnet over the generic argument (default Main). -/
theorem claim_C1_network_selection :
    (∀ a : SuppliedChainArgs,
        ((a.signet ∧ a.regtest) ∨ (a.signet ∧ a.testnet) ∨ (a.regtest ∧ a.testnet)
            ∨ ((a.signet ∨ a.regtest ∨ a.testnet)
                ∧ ∃ c, a.chain_argument = some c ∧ c ≠ .mainnet)) →
          parseChainArgs a = .error "usage error: conflicting network arguments")
    ∧ (∀ c : Chain,
        parseChainArgs ⟨some c, false, false, false⟩ = .ok (false, false, false, c)
          ∧ (optionsOfChainFlags false false false c).chain = c)
    ∧ (parseChainArgs ⟨none, true, false, false⟩ = .ok (true, false, false, .mainnet)
        ∧ (optionsOfChainFlags true false false .mainnet).chain = .signet)
    ∧ (parseChainArgs ⟨none, false, true, false⟩ = .ok (false, true, false, .mainnet)
        ∧ (optionsOfChainFlags false true false .mainnet).chain = .regtest)
    ∧ (parseChainArgs ⟨none, false, false, true⟩ = .ok (false, false, true, .mainnet)
        ∧ (optionsOfChainFlags false false true .mainnet).chain = .testnet)
    ∧ (∀ o : Options,
        (o.signet = true → o.chain = .signet)
          ∧ (o.signet = false → o.regtest = true → o.chain = .regtest)
          ∧ (o.signet = false → o.regtest = false → o.testnet = true →
              o.chain = .testnet)
          ∧ (o.signet = false → o.regtest = false → o.testnet = false →
              o.chain = o.chain_argument)) := by
  refine ⟨by decide, by decide, by decide, by decide, by decide, ?_⟩
  intro o
  refine ⟨?_, ?_, ?_, ?_⟩ <;> intros <;> simp [Options.chain, *]

/-- C1 witness: a shortcut combined with a non-default generic choice is
rejected, and the signet shortcut takes precedence over all others. -/
theorem claim_C1_network_selection_witness :
    parseChainArgs ⟨some Chain.signet, false, true, false⟩
        = .error "usage error: conflicting network arguments"
      ∧ (optionsOfChainFlags true true true .testnet).chain = .signet :=
  ⟨claim_C1_network_selection.1 ⟨some Chain.signet, false, true, false⟩ (by decide),
    (claim_C1_network_selection.2.2.2.2.2 (optionsOfChainFlags true true true .testnet)).1
      rfl⟩

/-- C6: an explicit RPC endpoint override is returned unchanged by
`Options.rpc_url`; without one the endpoint is
`127.0.0.1:<default port>/wallet/<wallet>`, so mainnet with no overrides
yields port 22555 with wallet "ord" and signet yields port 38332. -/
theorem claim_C6_rpc_url :
    (∀ (o : Options) (url : String), o.rpc_url_opt = some url → o.rpc_url = url)
    ∧ (∀ o : Options, o.rpc_url_opt = none →
        o.rpc_url
          = "127.0.0.1:" ++ toString (o.chain).default_rpc_port
              ++ "/wallet/" ++ o.wallet)
    ∧ (optionsOfChainFlags false false false .mainnet).rpc_url
        = "127.0.0.1:22555/wallet/ord"
    ∧ (optionsOfChainFlags true false false .mainnet).rpc_url
        = "127.0.0.1:38332/wallet/ord" := by
  refine ⟨?_, ?_, rfl, rfl⟩ <;> intros <;> simp [Options.rpc_url, *]

/-- C6 witness: the override wins at a concrete input, and the no-override
endpoint takes the stated shape there. -/
theorem claim_C6_rpc_url_witness :
    { optionsOfChainFlags true false false .mainnet with
        rpc_url_opt := some "127.0.0.1:1234" }.rpc_url = "127.0.0.1:1234"
      ∧ (optionsOfChainFlags true false false .mainnet).rpc_url
          = "127.0.0.1:"
              ++ toString ((optionsOfChainFlags true false false .mainnet).chain).default_rpc_port
              ++ "/wallet/" ++ (optionsOfChainFlags true false false .mainnet).wallet :=
  ⟨claim_C6_rpc_url.1 _ "127.0.0.1:1234" rfl,
    claim_C6_rpc_url.2.1 (optionsOfChainFlags true false false .mainnet) rfl⟩

/-- C9: with the resolved chain Regtest, `Options.first_inscription_height`
is the override when supplied and 0 otherwise, independent of the
environment (so of the per-chain table and the integration-test toggle); for
any other chain outside integration-test mode it is the override when
supplied, else that chain's table minimum. -/
theorem claim_C9_first_inscription_height :
    (∀ (o : Options) (env : Env), o.chain = .regtest →
        o.first_inscription_height env = o.first_inscription_height_opt.getD 0)
    ∧ (∀ (o : Options) (env env' : Env), o.chain = .regtest →
        o.first_inscription_height env = o.first_inscription_height env')
    ∧ (∀ (o : Options) (env : Env), o.chain ≠ .regtest →
        env.integrationTest = false →
        o.first_inscription_height env
          = o.first_inscription_height_opt.getD
              (env.chainFirstInscriptionHeight o.chain)) := by
  refine ⟨?_, ?_, ?_⟩
  · intro o env h
    simp [Options.first_inscription_height, h]
  · intro o env env' h
    simp [Options.first_inscription_height, h]
  · intro o env h hin
    simp only [Options.first_inscription_height, h, if_false, hin]
    cases o.first_inscription_height_opt <;> simp

/-- C9 witness: regtest ignores the table and falls back to 0; signet outside
integration-test mode falls back to the table value. -/
theorem claim_C9_first_inscription_height_witness :
    (optionsOfChainFlags false true false .mainnet).first_inscription_height envLinux
        = ((optionsOfChainFlags false true false .mainnet).first_inscription_height_opt).getD 0
      ∧ (optionsOfChainFlags true false false .mainnet).first_inscription_height envLinux
          = ((optionsOfChainFlags true false false .mainnet).first_inscription_height_opt).getD
              (envLinux.chainFirstInscriptionHeight
                (optionsOfChainFlags true false false .mainnet).chain) :=
  ⟨claim_C9_first_inscription_height.1 (optionsOfChainFlags false true false .mainnet)
      envLinux rfl,
    claim_C9_first_inscription_height.2.2 (optionsOfChainFlags true false false .mainnet)
      envLinux (by decide) rfl⟩

/-- C2: whenever the node's chain string decodes to a chain different from
the selected one, client construction fails with a message naming both in
the form "remote but local", on the plain constructor and on the
wallet-command constructor alike (for both values of `create`). -/
theorem claim_C2_network_mismatch (o : Options) (env : Env) (node : RpcNode)
    (rc : Chain) (create : Bool)
    (hcookie : ∃ p, o.cookie_file env = .ok p)
    (hchain : chainOfStr node.chainStr = some rc)
    (hne : rc ≠ o.chain) :
    o.dogecoin_rpc_client env node true
        = .error ("Dogecoin RPC server is on " ++ rc.display
            ++ " but ord is on " ++ (o.chain).display)
      ∧ o.dogecoin_rpc_client_for_wallet_command env node true create
          = .error ("Dogecoin RPC server is on " ++ rc.display
              ++ " but ord is on " ++ (o.chain).display) := by
  obtain ⟨p, hp⟩ := hcookie
  have h1 : o.dogecoin_rpc_client env node true
      = .error ("Dogecoin RPC server is on " ++ rc.display
          ++ " but ord is on " ++ (o.chain).display) := by
    simp [Options.dogecoin_rpc_client, hp, hchain, hne]
  refine ⟨h1, ?_⟩
  simp only [Options.dogecoin_rpc_client_for_wallet_command, h1]

/-- C2 witness: a signet selection against a node reporting "test" fails
with the testnet-but-signet message on the plain constructor. -/
theorem claim_C2_network_mismatch_witness :
    (optionsOfChainFlags true false false .mainnet).dogecoin_rpc_client envLinux nodeTest true
      = .error "Dogecoin RPC server is on testnet but ord is on signet" := by
  rw [(claim_C2_network_mismatch (optionsOfChainFlags true false false .mainnet) envLinux
      nodeTest .testnet false ⟨_, rfl⟩ (by decide) (by decide)).1]
  decide

/-- C10: a node reporting a chain string other than "main", "test",
"regtest" or "signet" makes `dogecoin_rpc_client` fail with the
unknown-chain error naming that string, whatever chain is selected. -/
theorem claim_C10_unknown_chain (o : Options) (env : Env) (node : RpcNode)
    (hcookie : ∃ p, o.cookie_file env = .ok p)
    (h1 : node.chainStr ≠ "main") (h2 : node.chainStr ≠ "test")
    (h3 : node.chainStr ≠ "regtest") (h4 : node.chainStr ≠ "signet") :
    o.dogecoin_rpc_client env node true
      = .error ("Dogecoin RPC server on unknown chain: " ++ node.chainStr) := by
  obtain ⟨p, hp⟩ := hcookie
  have hnone : chainOfStr node.chainStr = none := by
    simp [chainOfStr, h1, h2, h3, h4]
  simp [Options.dogecoin_rpc_client, hp, hnone]

/-- C10 witness: a node reporting "foonet" fails with the unknown-chain
error naming "foonet". -/
theorem claim_C10_unknown_chain_witness :
    (optionsOfChainFlags false false false .mainnet).dogecoin_rpc_client envLinux nodeFoo true
      = .error "Dogecoin RPC server on unknown chain: foonet" := by
  rw [claim_C10_unknown_chain (optionsOfChainFlags false false false .mainnet) envLinux
    nodeFoo ⟨_, rfl⟩ (by decide) (by decide) (by decide) (by decide)]
  decide

/-- C3: under the preflight preconditions, for a non-create wallet command
the construction succeeds if and only if exactly two descriptors start with
"tr(" and the total count is two plus the count starting with "rawtr(";
every other combination fails with the Configuration error naming the
wallet and pointing at `ord wallet create`. -/
theorem claim_C3_wallet_preflight (o : Options) (env : Env) (node : RpcNode)
    (hcookie : ∃ p, o.cookie_file env = .ok p)
    (hchain : chainOfStr node.chainStr = some o.chain)
    (hver : MIN_VERSION ≤ node.version)
    (hload : node.wallets.contains o.wallet = true ∨ node.loadWalletOk = true) :
    ((∃ c, o.dogecoin_rpc_client_for_wallet_command env node true false = .ok c)
        ↔ (node.descriptors.filter (fun d => strStartsWith d "tr(")).length = 2
            ∧ node.descriptors.length
                = 2 + (node.descriptors.filter (fun d => strStartsWith d "rawtr(")).length)
      ∧ ((node.descriptors.filter (fun d => strStartsWith d "tr(")).length ≠ 2
            ∨ node.descriptors.length
                ≠ 2 + (node.descriptors.filter (fun d => strStartsWith d "rawtr(")).length →
          o.dogecoin_rpc_client_for_wallet_command env node true false
            = .error (walletErrMsg o.wallet)) := by
  obtain ⟨p, hp⟩ := hcookie
  rw [wallet_cmd_reduce o env node p hp hchain hver hload]
  by_cases hshape : (node.descriptors.filter (fun d => strStartsWith d "tr(")).length = 2
      ∧ node.descriptors.length
          = 2 + (node.descriptors.filter (fun d => strStartsWith d "rawtr(")).length
  · have hcond : ¬ ((node.descriptors.filter (fun d => strStartsWith d "tr(")).length ≠ 2
        ∨ node.descriptors.length
            ≠ 2 + (node.descriptors.filter (fun d => strStartsWith d "rawtr(")).length) := by
      push_neg
      exact ⟨hshape.1, hshape.2⟩
    rw [if_neg hcond]
    exact ⟨iff_of_true ⟨⟨node⟩, rfl⟩ hshape, fun hbad => absurd hbad hcond⟩
  · have hcond : (node.descriptors.filter (fun d => strStartsWith d "tr(")).length ≠ 2
        ∨ node.descriptors.length
            ≠ 2 + (node.descriptors.filter (fun d => strStartsWith d "rawtr(")).length := by
      by_contra hno
      push_neg at hno
      exact hshape ⟨hno.1, hno.2⟩
    rw [if_pos hcond]
    refine ⟨iff_of_false ?_ hshape, fun _ => rfl⟩
    rintro ⟨c, hc⟩
    exact Except.noConfusion hc

/-- C3 witness: a wallet with exactly the two taproot descriptors passes the
preflight of a non-create wallet command. -/
theorem claim_C3_wallet_preflight_witness :
    ∃ c, (optionsOfChainFlags false false false .mainnet).dogecoin_rpc_client_for_wallet_command
        envLinux nodeTr2 true false = .ok c :=
  (claim_C3_wallet_preflight (optionsOfChainFlags false false false .mainnet) envLinux nodeTr2
      ⟨_, rfl⟩ (by decide) (by decide) (Or.inl (by decide))).1.mpr (by decide)

/-- C4 counterexample: a wallet holding two taproot descriptors plus one
raw-taproot descriptor (a composition other than two-taproot-and-nothing) is
accepted by the preflight rather than rejected. -/
theorem claim_C4_counterexample :
    (optionsOfChainFlags false false false .mainnet).dogecoin_rpc_client_for_wallet_command
        envLinux nodeTr2Raw1 true false = .ok ⟨nodeTr2Raw1⟩ := by
  decide

/-- C4 amended: a wallet whose descriptors comprise exactly two starting
with "tr(" and a total of two plus those starting with "rawtr(" passes the
preflight (in particular two taproot and zero raw-taproot, but also two
taproot plus raw-taproot descriptors); any other composition fails with the
Configuration error naming the wallet. -/
theorem claim_C4_amended_preflight (o : Options) (env : Env) (node : RpcNode)
    (hcookie : ∃ p, o.cookie_file env = .ok p)
    (hchain : chainOfStr node.chainStr = some o.chain)
    (hver : MIN_VERSION ≤ node.version)
    (hload : node.wallets.contains o.wallet = true ∨ node.loadWalletOk = true) :
    ((node.descriptors.filter (fun d => strStartsWith d "tr(")).length = 2 →
      node.descriptors.length
          = 2 + (node.descriptors.filter (fun d => strStartsWith d "rawtr(")).length →
      o.dogecoin_rpc_client_for_wallet_command env node true false = .ok ⟨node⟩)
      ∧ ((node.descriptors.filter (fun d => strStartsWith d "tr(")).length ≠ 2
            ∨ node.descriptors.length
                ≠ 2 + (node.descriptors.filter (fun d => strStartsWith d "rawtr(")).length →
          o.dogecoin_rpc_client_for_wallet_command env node true false
            = .error (walletErrMsg o.wallet)) := by
  obtain ⟨p, hp⟩ := hcookie
  rw [wallet_cmd_reduce o env node p hp hchain hver hload]
  constructor
  · intro h1 h2
    have hcond : ¬ ((node.descriptors.filter (fun d => strStartsWith d "tr(")).length ≠ 2
        ∨ node.descriptors.length
            ≠ 2 + (node.descriptors.filter (fun d => strStartsWith d "rawtr(")).length) := by
      push_neg
      exact ⟨h1, h2⟩
    rw [if_neg hcond]
  · intro hbad
    rw [if_pos hbad]

/-- C4 amended witness: a single-taproot wallet fails with the error naming
the wallet, and the two-taproot wallet passes. -/
theorem claim_C4_amended_preflight_witness :
    (optionsOfChainFlags false false false .mainnet).dogecoin_rpc_client_for_wallet_command
        envLinux nodeTr1 true false = .error (walletErrMsg "ord")
      ∧ (optionsOfChainFlags false false false .mainnet).dogecoin_rpc_client_for_wallet_command
          envLinux nodeTr2 true false = .ok ⟨nodeTr2⟩ :=
  ⟨(claim_C4_amended_preflight (optionsOfChainFlags false false false .mainnet) envLinux nodeTr1
      ⟨_, rfl⟩ (by decide) (by decide) (Or.inl (by decide))).2 (Or.inl (by decide)),
    (claim_C4_amended_preflight (optionsOfChainFlags false false false .mainnet) envLinux nodeTr2
      ⟨_, rfl⟩ (by decide) (by decide) (Or.inl (by decide))).1 (by decide) (by decide)⟩

/-- C5: an explicit cookie override is returned as-is; otherwise the cookie
path is the base directory (node data dir override, else home/.dogecoin on
Linux, else data dir/Dogecoin) with the chain's segment applied and
".cookie" appended; an unresolvable platform directory is an error naming
the missing directory kind; Main contributes no segment and Testnet's
segment is "testnet3". -/
theorem claim_C5_cookie_file :
    (∀ (o : Options) (env : Env) (p : List String),
        o.cookie_file_opt = some p → o.cookie_file env = .ok p)
    ∧ (∀ (o : Options) (env : Env) (d : List String),
        o.cookie_file_opt = none → o.dogecoin_data_dir = some d →
          o.cookie_file env = .ok ((o.chain).join_with_data_dir d ++ [".cookie"]))
    ∧ (∀ (o : Options) (env : Env) (h : List String),
        o.cookie_file_opt = none → o.dogecoin_data_dir = none →
          env.isLinux = true → env.homeDir = some h →
          o.cookie_file env
            = .ok ((o.chain).join_with_data_dir (h ++ [".dogecoin"]) ++ [".cookie"]))
    ∧ (∀ (o : Options) (env : Env) (d : List String),
        o.cookie_file_opt = none → o.dogecoin_data_dir = none →
          env.isLinux = false → env.dataDir = some d →
          o.cookie_file env
            = .ok ((o.chain).join_with_data_dir (d ++ ["Dogecoin"]) ++ [".cookie"]))
    ∧ (∀ (o : Options) (env : Env),
        o.cookie_file_opt = none → o.dogecoin_data_dir = none →
          env.isLinux = true → env.homeDir = none →
          o.cookie_file env = .error "failed to retrieve home dir")
    ∧ (∀ (o : Options) (env : Env),
        o.cookie_file_opt = none → o.dogecoin_data_dir = none →
          env.isLinux = false → env.dataDir = none →
          o.cookie_file env = .error "failed to retrieve data dir")
    ∧ (∀ base : List String,
        Chain.join_with_data_dir .mainnet base = base
          ∧ Chain.join_with_data_dir .testnet base = base ++ ["testnet3"]
          ∧ Chain.join_with_data_dir .signet base = base ++ ["signet"]
          ∧ Chain.join_with_data_dir .regtest base = base ++ ["regtest"]) := by
  refine ⟨?_, ?_, ?_, ?_, ?_, ?_, ?_⟩ <;> intros <;>
    simp [Options.cookie_file, Chain.join_with_data_dir, *]

/-- C5 witness: an explicit override is returned untouched; a testnet
selection on Linux gets home/.dogecoin with the testnet3 segment; a missing
home directory is the home-dir error. -/
theorem claim_C5_cookie_file_witness :
    { optionsOfChainFlags false false false .mainnet with
        cookie_file_opt := some ["foo", "bar"] }.cookie_file envLinux = .ok ["foo", "bar"]
      ∧ (optionsOfChainFlags false false true .mainnet).cookie_file envLinux
          = .ok (Chain.testnet.join_with_data_dir (["home"] ++ [".dogecoin"]) ++ [".cookie"])
      ∧ (optionsOfChainFlags false false false .mainnet).cookie_file envNoHome
          = .error "failed to retrieve home dir" :=
  ⟨claim_C5_cookie_file.1 _ envLinux ["foo", "bar"] rfl,
    claim_C5_cookie_file.2.2.1 (optionsOfChainFlags false false true .mainnet) envLinux
      ["home"] rfl rfl rfl rfl,
    claim_C5_cookie_file.2.2.2.2.1 (optionsOfChainFlags false false false .mainnet) envNoHome
      rfl rfl rfl rfl⟩

/-- C7: an explicit config path is parsed, failing when absent or malformed;
otherwise a given config directory's "ord.yaml" is parsed when present;
otherwise the default empty configuration is returned, absence never being
an error; exactly one document is consulted. -/
theorem claim_C7_load_config :
    (∀ (o : Options) (fs : FS) (yaml : String → Except String Config) (p : List String),
        o.config = some p → fs.file p = none →
          o.load_config fs yaml = .error "failed to open config file")
    ∧ (∀ (o : Options) (fs : FS) (yaml : String → Except String Config)
          (p : List String) (s : String),
        o.config = some p → fs.file p = some s → o.load_config fs yaml = yaml s)
    ∧ (∀ (o : Options) (fs : FS) (yaml : String → Except String Config)
          (p : List String) (s e : String),
        o.config = some p → fs.file p = some s → yaml s = .error e →
          o.load_config fs yaml = .error e)
    ∧ (∀ (o : Options) (fs : FS) (yaml : String → Except String Config)
          (dir : List String) (s : String),
        o.config = none → o.config_dir = some dir →
          fs.file (dir ++ ["ord.yaml"]) = some s → o.load_config fs yaml = yaml s)
    ∧ (∀ (o : Options) (fs : FS) (yaml : String → Except String Config)
          (dir : List String),
        o.config = none → o.config_dir = some dir →
          fs.file (dir ++ ["ord.yaml"]) = none →
          o.load_config fs yaml = .ok Config.default)
    ∧ (∀ (o : Options) (fs : FS) (yaml : String → Except String Config),
        o.config = none → o.config_dir = none →
          o.load_config fs yaml = .ok Config.default) := by
  refine ⟨?_, ?_, ?_, ?_, ?_, ?_⟩ <;> intros <;> simp [Options.load_config, *]

/-- C7 witness: a config directory holding the conventional file yields that
file's parse; no config source yields the empty default. -/
theorem claim_C7_load_config_witness :
    { optionsOfChainFlags false false false .mainnet with
        config_dir := some ["cfg"] }.load_config fsOrdYaml yamlToy = yamlToy "hidden-doc"
      ∧ (optionsOfChainFlags false false false .mainnet).load_config fsOrdYaml yamlToy
          = .ok Config.default :=
  ⟨claim_C7_load_config.2.2.2.1 _ fsOrdYaml yamlToy ["cfg"] "hidden-doc" rfl rfl (by decide),
    claim_C7_load_config.2.2.2.2.2 _ fsOrdYaml yamlToy rfl rfl⟩

/-- C8: the version formatter produces the four dotted components obtained
by successive division by 1000000, 10000, 100 and 1 with modulo at each
step, the minimum renders as "1.14.6.0", and a node below the minimum makes
the wallet-command constructor fail naming both versions in this format. -/
theorem claim_C8_version_check :
    (∀ v : Nat,
        format_dogecoin_core_version v
          = toString (v / 1000000) ++ "." ++ toString (v % 1000000 / 10000)
              ++ "." ++ toString (v % 10000 / 100) ++ "." ++ toString (v % 100))
    ∧ format_dogecoin_core_version MIN_VERSION = "1.14.6.0"
    ∧ (∀ (o : Options) (env : Env) (node : RpcNode) (create : Bool),
        (∃ p, o.cookie_file env = .ok p) →
        chainOfStr node.chainStr = some o.chain →
        node.version < MIN_VERSION →
        o.dogecoin_rpc_client_for_wallet_command env node true create
          = .error ("Dogecoin Core " ++ format_dogecoin_core_version MIN_VERSION
              ++ " or newer required, current version is "
              ++ format_dogecoin_core_version node.version)) := by
  refine ⟨fun v => rfl, by decide, ?_⟩
  intro o env node create hcookie hchain hver
  obtain ⟨p, hp⟩ := hcookie
  simp only [Options.dogecoin_rpc_client_for_wallet_command]
  rw [rpc_client_ok o env node p hp hchain]
  simp [hver]

/-- C8 witness: a node at version 1140599 fails the wallet preflight with
both versions rendered in dotted form. -/
theorem claim_C8_version_check_witness :
    (optionsOfChainFlags false false false .mainnet).dogecoin_rpc_client_for_wallet_command
        envLinux nodeOld true false
      = .error "Dogecoin Core 1.14.6.0 or newer required, current version is 1.14.5.99" := by
  rw [claim_C8_version_check.2.2 (optionsOfChainFlags false false false .mainnet) envLinux
    nodeOld false ⟨_, rfl⟩ (by decide) (by decide)]
  decide

end OrdBells
